import Mathlib

/-!
Shallow embedding of the `inflink-rs` CEF bridge (crates `cef-safe` and
`smtc_handler`), covering:

* the error enumeration (`cef-safe/src/error.rs`),
* the owning handle `CefRefPtr` (`packages/cef-safe/src/base.rs`),
* string/value creation and function execution (`packages/cef-safe/src/v8.rs`,
  `packages/cef-safe/src/string.rs`),
* the closure-task bridge (`packages/cef-safe/src/task.rs`),
* the callback registries (`smtc_handler/src/logger.rs`,
  `smtc_handler/src/smtc_core.rs`).

Raw C pointers are modelled as `Nat`, with `0` standing for the null pointer.
Nullable C function pointers (`Option<extern fn>` on the Rust side) are
modelled as `Option`-valued data describing the behaviour the foreign
function would exhibit when called.  FFI side effects are recorded as
explicit event lists so that claims about "how many `add_ref` calls happen"
are statements about the trace a run produces.
-/

/-- `CefError` from `cef-safe/src/error.rs`.  `V8ValueCreationFailed` carries
the `&'static str` payload; `line`/`column` of `V8Exception` are `i32` in the
source, modelled as `Int`. -/
inductive CefError where
  | NullPtrReceived
  | NoCurrentV8Context
  | TaskPostFailed
  | V8ValueCreationFailed (what : String)
  | V8FunctionExecutionFailed
  | StringConversionFailed
  | V8Exception (message : String) (script : String) (line : Int) (column : Int)
  deriving DecidableEq, Repr

/-- `CefResult<T>` from `cef-safe/src/error.rs`. -/
abbrev CefResult (α : Type) := Except CefError α

/-! ## The bridge's own reference-count vtable (`packages/cef-safe/src/task.rs`,
`internal_logic::base_*`).

The counter is an `AtomicUsize`; we model it as a `Nat` kept below `2 ^ 64`
(the `usize` width on the observed targets), with the wrap-around of
`fetch_add`/`fetch_sub` made explicit.  Each operation returns the new
counter value together with its observable outputs. -/

/-- The `usize` modulus. -/
def usizeMod : Nat := 2 ^ 64

/-- `internal_logic::base_add_ref`: `ref_count.fetch_add(1, Relaxed)`. -/
def base_add_ref (c : Nat) : Nat := (c + 1) % usizeMod

/-- `internal_logic::base_release`: `fetch_sub(1, AcqRel)` returns the old
value; when that old value is `1` the task box is reclaimed
(`Box::from_raw` + `drop`) and `1` is returned, otherwise `0`.
Result: (new counter, returned `i32`, whether the allocation was freed). -/
def base_release (c : Nat) : Nat × Int × Bool :=
  let newC := (c + (usizeMod - 1)) % usizeMod
  if c = 1 then (newC, 1, true) else (newC, 0, false)

/-- `internal_logic::base_has_one_ref`: `i32::from(count == 1)`; the load does
not modify the counter, so the returned state is the input counter. -/
def base_has_one_ref (c : Nat) : Nat × Int :=
  (c, if c = 1 then 1 else 0)

/-- `internal_logic::base_has_at_least_one_ref`: `i32::from(count > 0)`. -/
def base_has_at_least_one_ref (c : Nat) : Nat × Int :=
  (c, if c > 0 then 1 else 0)

/-! ## The owning handle `CefRefPtr<T>` (`packages/cef-safe/src/base.rs`).

The foreign object's `_cef_base_ref_counted_t` header holds nullable function
pointers `add_ref` and `release`; we record which of them are present, and
model a call through the vtable as an emitted `RefOp` event.  The handle
itself is just the non-null raw pointer it wraps. -/

/-- A reference-count call observed through the header's vtable. -/
inductive RefOp where
  | addRef
  | release
  deriving DecidableEq, Repr

/-- Presence of the nullable `add_ref` / `release` function pointers in a
`_cef_base_ref_counted_t` header. -/
structure BaseVt where
  add_ref_present : Bool
  release_present : Bool
  deriving DecidableEq, Repr

namespace CefRefPtr

/-- `CefRefPtr::from_raw`: `NonNull::new(ptr).map(..).ok_or(NullPtrReceived)`.
Returns the wrapped pointer; no vtable call is made, hence the event list. -/
def from_raw (ptr : Nat) : CefResult Nat × List RefOp :=
  (if ptr = 0 then .error .NullPtrReceived else .ok ptr, [])

/-- `Clone for CefRefPtr`: `if let Some(add_ref) = (*base).add_ref { add_ref(base) }`,
then a new handle sharing `self.ptr` is returned.  Result: (pointer of the
new handle, vtable calls made). -/
def clone (vt : BaseVt) (ptr : Nat) : Nat × List RefOp :=
  (ptr, if vt.add_ref_present then [.addRef] else [])

/-- `Drop for CefRefPtr`: `if let Some(release) = (*base).release { release(base) }`. -/
def drop (vt : BaseVt) : List RefOp :=
  if vt.release_present then [.release] else []

end CefRefPtr

/-! The lifetime of one `from_raw`-created handle family: a sequence of
`clone` / `drop` operations, each applied to some currently live handle. -/

/-- One operation performed on some live handle of the family. -/
inductive HandleOp where
  | clone
  | drop
  deriving DecidableEq, Repr

/-- A sequence of handle operations is well formed when every operation is
performed while at least one handle of the family is live; `live` is the
number of live handles (1 right after `from_raw`). -/
def handleOpsValid : Nat → List HandleOp → Bool
  | _, [] => true
  | live, .clone :: rest => decide (1 ≤ live) && handleOpsValid (live + 1) rest
  | live, .drop :: rest => decide (1 ≤ live) && handleOpsValid (live - 1) rest

/-- Number of handles of the family still live after the sequence. -/
def liveAfter : Nat → List HandleOp → Nat
  | live, [] => live
  | live, .clone :: rest => liveAfter (live + 1) rest
  | live, .drop :: rest => liveAfter (live - 1) rest

/-- The vtable calls emitted by running the operation sequence: each `clone`
runs `CefRefPtr.clone`, each `drop` runs `CefRefPtr.drop`. -/
def runHandleOps (vt : BaseVt) : List HandleOp → List RefOp
  | [] => []
  | .clone :: rest => (CefRefPtr.clone vt 1).2 ++ runHandleOps vt rest
  | .drop :: rest => CefRefPtr.drop vt ++ runHandleOps vt rest

/-- The test double vtable of §8: both `add_ref` and `release` supplied. -/
def testDoubleVt : BaseVt := ⟨true, true⟩

/-! ## The scripting value bridge (`packages/cef-safe/src/v8.rs`,
`packages/cef-safe/src/string.rs`). -/

/-- `CefV8Context::current`: wraps the raw pointer returned by the foreign
accessor `cef_v8context_get_current_context` with `Self::from_raw`.
`raw_current` is that accessor's return value (0 = null). -/
def CefV8Context.current (raw_current : Nat) : CefResult Nat :=
  (CefRefPtr.from_raw raw_current).1

/-- Environment of one `CefV8Value::try_from_str` call: the outcome of the
two foreign entry points it reaches. -/
structure FromStrEnv where
  /-- whether `cef_string_utf16_set(..) == 1` -/
  utf16_set_ok : Bool
  /-- the raw pointer returned by `cef_v8value_create_string` (0 = null) -/
  create_string_ret : Nat
  deriving DecidableEq, Repr

/-- `CefString16::from_str` (`string.rs`): `Ok` when `cef_string_utf16_set`
reports success, `Err(StringConversionFailed)` otherwise. -/
def CefString16.from_str (env : FromStrEnv) : CefResult Unit :=
  if env.utf16_set_ok then .ok () else .error .StringConversionFailed

/-- `CefV8Value::try_from_str`: `CefString16::from_str(s)?`, then
`cef_v8value_create_string`, then `Self::from_raw(raw_ptr)`. -/
def CefV8Value.try_from_str (env : FromStrEnv) : CefResult Nat :=
  match CefString16.from_str env with
  | .error e => .error e
  | .ok _ => (CefRefPtr.from_raw env.create_string_ret).1

/-! ### `CefV8Value::execute_function` and `error_from_exception_ptr`
(`packages/cef-safe/src/v8.rs`).

The receiver's `_cef_v8value_t` vtable entries that the function reaches are
nullable; we model each as the behaviour it exhibits when present.  The
pending-exception state of the receiver is explicit: the foreign
`has_exception` reports it and `clear_exception` resets it. -/

/-- Behaviour of a foreign `_cef_v8exception_t` object's accessors, each
nullable in the vtable (`None` = null function pointer). -/
structure V8ExcObj where
  get_message : Option String
  get_script_resource_name : Option String
  get_line_number : Option Int
  get_start_column : Option Int
  deriving DecidableEq, Repr

/-- `error_from_exception_ptr`: a null exception pointer (`from_raw` fails)
yields `V8FunctionExecutionFailed`; otherwise each missing accessor
contributes the `map_or` default (`String::new()` / `0`). -/
def error_from_exception_ptr (exc : Option V8ExcObj) : CefError :=
  match exc with
  | none => .V8FunctionExecutionFailed
  | some e =>
      .V8Exception (e.get_message.getD "") (e.get_script_resource_name.getD "")
        (e.get_line_number.getD 0) (e.get_start_column.getD 0)

/-- The parts of the receiver's vtable that `execute_function` touches.
`execute_function_ret` is `none` when the `execute_function` pointer itself
is null (the call site then substitutes `ptr::null_mut()`), otherwise the
raw pointer the foreign call returns.  `get_exception` is `none` when that
vtable slot is null (the call site substitutes null), otherwise the
exception object the foreign call hands back (`none` inside = null). -/
structure ExecEnv where
  execute_function_ret : Option Nat
  has_exception_present : Bool
  get_exception : Option (Option V8ExcObj)
  clear_exception_present : Bool
  deriving DecidableEq, Repr

/-- `CefV8Value::execute_function`, as a function of the reachable foreign
behaviour and of the receiver's pending-exception state.  Returns the
`CefResult` together with the pending-exception state after the call. -/
def CefV8Value.execute_function (env : ExecEnv) (pending : Bool) :
    CefResult Nat × Bool :=
  let raw_retval := env.execute_function_ret.getD 0
  if raw_retval ≠ 0 then
    ((CefRefPtr.from_raw raw_retval).1, pending)
  else
    let has_exception := (if env.has_exception_present then (if pending then 1 else 0) else 0) = 1
    if has_exception then
      let exception_ptr := env.get_exception.getD none
      let error := error_from_exception_ptr exception_ptr
      let pending' := if env.clear_exception_present then false else pending
      (.error error, pending')
    else
      (.error .V8FunctionExecutionFailed, pending)

/-! ## The cross-thread task bridge (`packages/cef-safe/src/task.rs`). -/

/-- Behaviour of the posted one-shot closure when it runs. -/
inductive CbBehavior where
  | normal
  | panics
  deriving DecidableEq, Repr

/-- The mutable state of a `RustClosureTask` that `execute_rust_closure`
touches, together with the context vtable entries it may call.
`closure` is the one-shot slot (`Option<Box<dyn FnOnce()>>`);
`ctx_enter_present` / `ctx_exit_present` say whether the stored context's
`enter` / `exit` function pointers are non-null. -/
structure TaskState where
  closure : Option CbBehavior
  ctx_enter_present : Bool
  ctx_exit_present : Bool
  deriving DecidableEq, Repr

/-- Observable steps of one `execute_rust_closure` invocation. -/
inductive ExecEvent where
  | enterContext
  | runClosure
  | panicUnwind
  | panicCaught
  | exitContext
  deriving DecidableEq, Repr

/-- Calling the closure directly: it runs, and if it panics the unwind is in
progress afterwards (second component `true`). -/
def invokeClosure (cb : CbBehavior) : List ExecEvent × Bool :=
  ([.runClosure] ++ (if cb = .panics then [.panicUnwind] else []), cb = .panics)

/-- `catch_unwind(AssertUnwindSafe(closure))` with the result discarded:
an unwind in progress is caught and swallowed, so no unwind is in progress
after it returns. -/
def catchUnwind (r : List ExecEvent × Bool) : List ExecEvent × Bool :=
  (r.1 ++ (if r.2 then [.panicCaught] else []), false)

/-- `internal_logic::execute_rust_closure`: enter the context when its
`enter` pointer is non-null; `take` the closure and, when one was stored,
run it under `catch_unwind`; if the context was entered and its `exit`
pointer is non-null, exit it (skipped if an unwind were still in progress).
Returns (state after, events, whether a panic escapes the function). -/
def execute_rust_closure (st : TaskState) : TaskState × List ExecEvent × Bool :=
  let entered := st.ctx_enter_present
  let enterEvs := if entered then [ExecEvent.enterContext] else []
  let (cbEvs, unwinding) :=
    match st.closure with
    | some cb => catchUnwind (invokeClosure cb)
    | none => ([], false)
  let st' := { st with closure := none }
  let exitEvs :=
    if unwinding then []
    else if entered && st.ctx_exit_present then [ExecEvent.exitContext] else []
  (st', enterEvs ++ cbEvs ++ exitEvs, unwinding)

/-- The events produced by invoking `execute_rust_closure` `n` times in a row
on the same task pointer (each invocation sees the state the previous one
left behind). -/
def executeSeq : TaskState → Nat → List ExecEvent
  | _, 0 => []
  | st, n + 1 =>
      let (st', evs, _) := execute_rust_closure st
      evs ++ executeSeq st' n

/-! ### `renderer_post_task_in_v8_ctx`. -/

/-- Environment of one post call: whether
`cef_task_runner_get_for_thread(TID_RENDERER)` returns a non-null runner,
whether that runner's `post_task` pointer is non-null, and whether the
foreign `post_task` call returns 1. -/
structure PostEnv where
  runner_available : Bool
  post_task_present : Bool
  post_task_accepts : Bool
  deriving DecidableEq, Repr

/-- What one post call did, as an ordered trace. -/
inductive PostEvent where
  | getTaskRunner
  /-- `Box::new(RustClosureTask { .. ref_count: AtomicUsize::new(n) })` -/
  | allocateTask (refCount : Nat)
  | callPostTask
  /-- `drop(Box::from_raw(task_ptr))` -/
  | dropAllocation
  /-- a call to the task's own `base_add_ref` -/
  | taskAddRef
  /-- a call to the task's own `base_release` -/
  | taskRelease
  deriving DecidableEq, Repr

/-- `renderer_post_task_in_v8_ctx`: resolve the runner (fail with
`TaskPostFailed` if null); allocate the task with `ref_count` 1 and leak it;
call `post_task` when present; on rejection reclaim and drop the allocation
and fail, otherwise succeed leaving the one reference with the scheduler. -/
def renderer_post_task_in_v8_ctx (env : PostEnv) :
    CefResult Unit × List PostEvent :=
  if !env.runner_available then
    (.error .TaskPostFailed, [.getTaskRunner])
  else
    let postEvs := if env.post_task_present then [PostEvent.callPostTask] else []
    let success := env.post_task_present && env.post_task_accepts
    if success then
      (.ok (), [.getTaskRunner, .allocateTask 1] ++ postEvs)
    else
      (.error .TaskPostFailed,
        [.getTaskRunner, .allocateTask 1] ++ postEvs ++ [.dropAllocation])

/-! ## The callback registries (`smtc_handler/src/logger.rs`,
`smtc_handler/src/smtc_core.rs`).

A registration pairs the captured context with the function handle.  The
mutex around each slot is assumed healthy (lock poisoning is a crash-path
artifact outside this model).  Both functions return `()` in the source;
the error they print/log on failure is returned as an `Option CefError` so
that what is reported can be stated. -/

/-- A stored (context, function) registration. -/
structure RegCallback where
  ctx : Nat
  func : Nat
  deriving DecidableEq, Repr

/-- `logger::register_callback(v8_func_ptr)`: first `clear_callback()`; then
build `CefV8Value::from_raw(v8_func_ptr).and_then(|f| CefV8Context::current()
.map(..))`; on `Ok` store it, on `Err` print the error and set the slot to
`None`.  `cur_ctx_raw` is what `cef_v8context_get_current_context` returns.
Result: (slot after the call, error reported if any). -/
def logger_register_callback (_slot : Option RegCallback) (v8_func_ptr : Nat)
    (cur_ctx_raw : Nat) : Option RegCallback × Option CefError :=
  let callback_result : CefResult RegCallback :=
    match (CefRefPtr.from_raw v8_func_ptr).1 with
    | .error e => .error e
    | .ok f =>
        match CefV8Context.current cur_ctx_raw with
        | .error e => .error e
        | .ok c => .ok ⟨c, f⟩
  match callback_result with
  | .ok cb => (some cb, none)
  | .error e => (none, some e)

/-- `logger::clear_callback()`: sets the slot to `None`. -/
def logger_clear_callback (_slot : Option RegCallback) : Option RegCallback :=
  none

/-- `smtc_core::register_event_callback(v8_func_ptr)`: build the callback
(`CefV8Context::current()?` first, then `CefV8Value::from_raw(..)?`); then,
when the SMTC context is initialised, store it on `Ok` and only log the
error on `Err`; when uninitialised, warn and change nothing.  Result:
(callback slot after the call, error reported if any). -/
def smtc_register_event_callback (smtc_ctx_present : Bool)
    (slot : Option RegCallback) (v8_func_ptr : Nat) (cur_ctx_raw : Nat) :
    Option RegCallback × Option CefError :=
  let callback_result : CefResult RegCallback :=
    match CefV8Context.current cur_ctx_raw with
    | .error e => .error e
    | .ok c =>
        match (CefRefPtr.from_raw v8_func_ptr).1 with
        | .error e => .error e
        | .ok f => .ok ⟨c, f⟩
  if smtc_ctx_present then
    match callback_result with
    | .ok cb => (some cb, none)
    | .error e => (slot, some e)
  else
    (slot, none)

/-! # Theorems -/

/-- Decidable equality on `Except`, so that concrete `CefResult` values can
be checked by `decide`. -/
instance {ε α : Type} [DecidableEq ε] [DecidableEq α] : DecidableEq (Except ε α)
  | .ok a, .ok b => decidable_of_iff (a = b) (by simp)
  | .error a, .error b => decidable_of_iff (a = b) (by simp)
  | .ok _, .error _ => isFalse (by simp)
  | .error _, .ok _ => isFalse (by simp)

/-- Helper: does a `try_from_str` result carry the `V8ValueCreationFailed`
error? -/
def isValueCreationFailed : CefResult Nat → Bool
  | .error (.V8ValueCreationFailed _) => true
  | _ => false

/-- After any invocation of `execute_rust_closure` the closure slot is empty. -/
lemma execute_rust_closure_slot_empty (st : TaskState) :
    (execute_rust_closure st).1.closure = none := by
  obtain ⟨cl, en, ex⟩ := st
  cases cl <;> rfl

/-- One invocation emits a `runClosure` event exactly when a closure was
stored. -/
lemma execute_rust_closure_run_count (st : TaskState) :
    ((execute_rust_closure st).2.1).count ExecEvent.runClosure
      = if st.closure.isSome then 1 else 0 := by
  obtain ⟨cl, en, ex⟩ := st
  cases cl with
  | none => cases en <;> cases ex <;> rfl
  | some cb => cases cb <;> cases en <;> cases ex <;> rfl

/-- With an empty closure slot, repeated invocations never emit `runClosure`. -/
lemma executeSeq_none_run_count (n : Nat) :
    ∀ st : TaskState, st.closure = none →
      (executeSeq st n).count ExecEvent.runClosure = 0 := by
  induction n with
  | zero => intro st _; rfl
  | succ m ih =>
      intro st hst
      show ((execute_rust_closure st).2.1 ++ executeSeq (execute_rust_closure st).1 m).count
          ExecEvent.runClosure = 0
      rw [List.count_append, execute_rust_closure_run_count,
        ih _ (execute_rust_closure_slot_empty st), hst]
      rfl

/-- Claim C2: the stored one-shot callback runs at most once over any number
of invocations of the execute entry point on the same task: the first
invocation removes the closure from its slot, and a later invocation finds
the slot empty and runs nothing. -/
theorem closure_runs_at_most_once (st : TaskState) (n : Nat) :
    (executeSeq st n).count ExecEvent.runClosure ≤ 1
    ∧ (execute_rust_closure st).1.closure = none
    ∧ ((execute_rust_closure ((execute_rust_closure st).1)).2.1).count
        ExecEvent.runClosure = 0 := by
  refine ⟨?_, execute_rust_closure_slot_empty st, ?_⟩
  · cases n with
    | zero => exact Nat.zero_le 1
    | succ m =>
        show ((execute_rust_closure st).2.1 ++ executeSeq (execute_rust_closure st).1 m).count
            ExecEvent.runClosure ≤ 1
        rw [List.count_append, execute_rust_closure_run_count,
          executeSeq_none_run_count m _ (execute_rust_closure_slot_empty st)]
        cases h : st.closure.isSome <;> simp
  · rw [execute_rust_closure_run_count, execute_rust_closure_slot_empty st]
    rfl

/-- Claim C1: a panicking callback is caught at the task-execution site — the
unwind never escapes `execute_rust_closure` — and when the context's `enter`
pointer was present (entry succeeded) and its `exit` pointer is present, the
exit call still happens after the caught panic, in this exact order. -/
theorem panic_contained_and_context_exited (st : TaskState)
    (hcb : st.closure = some CbBehavior.panics) :
    (execute_rust_closure st).2.2 = false
    ∧ (st.ctx_enter_present = true → st.ctx_exit_present = true →
        (execute_rust_closure st).2.1
          = [ExecEvent.enterContext, ExecEvent.runClosure, ExecEvent.panicUnwind,
             ExecEvent.panicCaught, ExecEvent.exitContext]) := by
  obtain ⟨cl, en, ex⟩ := st
  cases hcb
  cases en <;> cases ex <;> refine ⟨rfl, ?_⟩ <;> intro h1 h2 <;> first | rfl | simp at h1 h2

/-- Witness for C1 at a concrete panicking task with enter and exit present. -/
theorem panic_contained_and_context_exited_witness :
    (execute_rust_closure ⟨some CbBehavior.panics, true, true⟩).2.2 = false
    ∧ (execute_rust_closure ⟨some CbBehavior.panics, true, true⟩).2.1
        = [ExecEvent.enterContext, ExecEvent.runClosure, ExecEvent.panicUnwind,
           ExecEvent.panicCaught, ExecEvent.exitContext] :=
  ⟨(panic_contained_and_context_exited ⟨some CbBehavior.panics, true, true⟩ rfl).1,
   (panic_contained_and_context_exited ⟨some CbBehavior.panics, true, true⟩ rfl).2 rfl rfl⟩

/-- Claim C8: the bridge's own reference-count vtable.  `add_ref` increments
by one (absent `usize` wrap), `release` decrements by one, returns 1 and
frees exactly on the transition to zero, and the two query operations read
the counter without changing it. -/
theorem base_refcount_vtable_spec (c : Nat) (hc : c < usizeMod) :
    (c + 1 < usizeMod → base_add_ref c = c + 1)
    ∧ (1 ≤ c → base_release c = (c - 1, if c = 1 then 1 else 0, decide (c - 1 = 0)))
    ∧ ((base_release c).2.2 = true ↔ c = 1)
    ∧ base_has_one_ref c = (c, if c = 1 then 1 else 0)
    ∧ base_has_at_least_one_ref c = (c, if 0 < c then 1 else 0) := by
  refine ⟨?_, ?_, ?_, rfl, rfl⟩
  · intro h
    simpa [base_add_ref] using Nat.mod_eq_of_lt h
  · intro h1
    have hsum : c + (usizeMod - 1) = (c - 1) + usizeMod := by
      have : 1 ≤ usizeMod := Nat.one_le_two_pow
      omega
    have hmod : (c + (usizeMod - 1)) % usizeMod = c - 1 := by
      rw [hsum, Nat.add_mod_right, Nat.mod_eq_of_lt (by omega)]
    simp only [base_release]
    rw [hmod]
    by_cases h : c = 1
    · simp [h]
    · have hne0 : c - 1 ≠ 0 := by omega
      simp [h, hne0]
  · by_cases h : c = 1 <;> simp [base_release, h]

/-- Witness for C8 at counter value 2 (and the freeing release at 1). -/
theorem base_refcount_vtable_spec_witness :
    base_add_ref 2 = 3
    ∧ base_release 2 = (1, 0, false)
    ∧ base_release 1 = (0, 1, true)
    ∧ base_has_one_ref 2 = (2, 0)
    ∧ base_has_at_least_one_ref 2 = (2, 1) := by
  have h2 := base_refcount_vtable_spec 2 (by norm_num [usizeMod])
  have h1 := base_refcount_vtable_spec 1 (by norm_num [usizeMod])
  refine ⟨h2.1 (by norm_num [usizeMod]), ?_, ?_, ?_, ?_⟩
  · simpa using h2.2.1 (by norm_num)
  · simpa using h1.2.1 (by norm_num)
  · simpa using h2.2.2.2.1
  · simpa using h2.2.2.2.2

/-- Claim C10: with a header whose `add_ref` and `release` function pointers
are null, `clone` makes no vtable call yet still returns a handle sharing
the same non-null pointer, and `drop` makes no vtable call; both are total
(no panic path exists in either implementation). -/
theorem null_vtable_clone_drop_no_calls (vt : BaseVt) (ptr : Nat)
    (ha : vt.add_ref_present = false) (hr : vt.release_present = false)
    (hp : ptr ≠ 0) :
    CefRefPtr.clone vt ptr = (ptr, [])
    ∧ (CefRefPtr.clone vt ptr).1 ≠ 0
    ∧ CefRefPtr.drop vt = [] := by
  refine ⟨?_, ?_, ?_⟩
  · simp [CefRefPtr.clone, ha]
  · simpa [CefRefPtr.clone] using hp
  · simp [CefRefPtr.drop, hr]

/-- Witness for C10: a null-vtable header over pointer 5. -/
theorem null_vtable_clone_drop_no_calls_witness :
    CefRefPtr.clone ⟨false, false⟩ 5 = (5, [])
    ∧ CefRefPtr.drop ⟨false, false⟩ = [] :=
  ⟨(null_vtable_clone_drop_no_calls ⟨false, false⟩ 5 rfl rfl (by decide)).1,
   (null_vtable_clone_drop_no_calls ⟨false, false⟩ 5 rfl rfl (by decide)).2.2⟩

/-- Generalised refcount-balance invariant: along any well-formed operation
sequence starting with `live` live handles, releases observed so far plus
handles still live equal addRefs observed so far plus the handles that were
live at the start. -/
lemma runHandleOps_balance (ops : List HandleOp) :
    ∀ live : Nat, handleOpsValid live ops = true →
      (runHandleOps testDoubleVt ops).count RefOp.release + liveAfter live ops
        = (runHandleOps testDoubleVt ops).count RefOp.addRef + live := by
  induction ops with
  | nil => intro live _; rfl
  | cons op rest ih =>
      intro live hvalid
      cases op with
      | clone =>
          have h := by simpa [handleOpsValid] using hvalid
          have := ih (live + 1) h.2
          simp [runHandleOps, liveAfter, CefRefPtr.clone, testDoubleVt,
            List.count_append] at this ⊢
          omega
      | drop =>
          have h := by simpa [handleOpsValid] using hvalid
          have := ih (live - 1) h.2
          have hlive : 1 ≤ live := h.1
          simp [runHandleOps, liveAfter, CefRefPtr.drop, testDoubleVt,
            List.count_append] at this ⊢
          omega

/-- Claim C9: `from_raw` performs no reference-count mutation, and over a
whole handle lifetime (every handle of the family eventually dropped, each
operation performed on a live handle) the test double vtable observes
exactly one more `release` than `addRef` — the one reference `from_raw`
transferred in. -/
theorem handle_refcount_balance (ops : List HandleOp)
    (hvalid : handleOpsValid 1 ops = true)
    (hdone : liveAfter 1 ops = 0) :
    (runHandleOps testDoubleVt ops).count RefOp.release
      = (runHandleOps testDoubleVt ops).count RefOp.addRef + 1
    ∧ ∀ p : Nat, (CefRefPtr.from_raw p).2 = [] := by
  refine ⟨?_, fun p => rfl⟩
  have := runHandleOps_balance ops 1 hvalid
  omega

/-- Witness for C9: `from_raw`, one `clone`, two `drop`s — two releases, one
addRef. -/
theorem handle_refcount_balance_witness :
    handleOpsValid 1 [HandleOp.clone, HandleOp.drop, HandleOp.drop] = true
    ∧ liveAfter 1 [HandleOp.clone, HandleOp.drop, HandleOp.drop] = 0
    ∧ (runHandleOps testDoubleVt [HandleOp.clone, HandleOp.drop, HandleOp.drop]).count
          RefOp.release
        = (runHandleOps testDoubleVt [HandleOp.clone, HandleOp.drop, HandleOp.drop]).count
            RefOp.addRef + 1 :=
  ⟨by decide, by decide,
   (handle_refcount_balance [HandleOp.clone, HandleOp.drop, HandleOp.drop]
      (by decide) (by decide)).1⟩

/-- Claim C4: `renderer_post_task_in_v8_ctx` fails with `TaskPostFailed`
exactly when the runner is unavailable (then it returns before any
allocation, with no task refcount call) or the runner's `post_task` is
missing or rejects (then the leaked allocation, created with refcount 1, is
reclaimed and dropped before returning); otherwise it returns `Ok` and the
single reference stays with the scheduler (never dropped here).  No halfway
completion exists, and the function itself never calls the task's
`add_ref`/`release`. -/
theorem renderer_post_task_spec (env : PostEnv) :
    ((renderer_post_task_in_v8_ctx env).1 = .error .TaskPostFailed
       ↔ ¬(env.runner_available = true ∧ env.post_task_present = true
            ∧ env.post_task_accepts = true))
    ∧ (env.runner_available = false →
        (renderer_post_task_in_v8_ctx env).2 = [PostEvent.getTaskRunner])
    ∧ (env.runner_available = true →
        (env.post_task_present && env.post_task_accepts) = false →
        (renderer_post_task_in_v8_ctx env).1 = .error .TaskPostFailed
        ∧ ((renderer_post_task_in_v8_ctx env).2).count (PostEvent.allocateTask 1) = 1
        ∧ ((renderer_post_task_in_v8_ctx env).2).getLast? = some PostEvent.dropAllocation)
    ∧ (env.runner_available = true →
        (env.post_task_present && env.post_task_accepts) = true →
        (renderer_post_task_in_v8_ctx env).1 = .ok ()
        ∧ PostEvent.dropAllocation ∉ (renderer_post_task_in_v8_ctx env).2
        ∧ ((renderer_post_task_in_v8_ctx env).2).count (PostEvent.allocateTask 1) = 1)
    ∧ ((renderer_post_task_in_v8_ctx env).2).count PostEvent.taskAddRef = 0
    ∧ ((renderer_post_task_in_v8_ctx env).2).count PostEvent.taskRelease = 0 := by
  obtain ⟨ra, pp, pa⟩ := env
  cases ra <;> cases pp <;> cases pa <;> decide

/-- Witness for C4: a run whose runner resolution fails, and a rejected post. -/
theorem renderer_post_task_spec_witness :
    (renderer_post_task_in_v8_ctx ⟨false, true, true⟩).2 = [PostEvent.getTaskRunner]
    ∧ (renderer_post_task_in_v8_ctx ⟨true, true, false⟩).1 = .error .TaskPostFailed
    ∧ ((renderer_post_task_in_v8_ctx ⟨true, true, false⟩).2).getLast?
        = some PostEvent.dropAllocation
    ∧ (renderer_post_task_in_v8_ctx ⟨true, true, true⟩).1 = .ok () :=
  ⟨(renderer_post_task_spec ⟨false, true, true⟩).2.1 rfl,
   ((renderer_post_task_spec ⟨true, true, false⟩).2.2.1 rfl rfl).1,
   ((renderer_post_task_spec ⟨true, true, false⟩).2.2.1 rfl rfl).2.2,
   ((renderer_post_task_spec ⟨true, true, true⟩).2.2.2.1 rfl rfl).1⟩

/-- Claim C3: when the foreign invocation returns a null value pointer,
`execute_function` follows the two-path rule — with a pending exception it
extracts message/script/line/column, clears the pending state, and returns
the structured `V8Exception`; with none pending it returns
`V8FunctionExecutionFailed` — and a non-null return is wrapped as success
without touching the pending state. -/
theorem execute_function_two_path (env : ExecEnv) (exc : V8ExcObj) (pending : Bool)
    (hhas : env.has_exception_present = true)
    (hget : env.get_exception = some (some exc))
    (hclear : env.clear_exception_present = true) :
    (env.execute_function_ret.getD 0 = 0 →
      CefV8Value.execute_function env pending =
        (if pending then
           (.error (.V8Exception (exc.get_message.getD "")
              (exc.get_script_resource_name.getD "")
              (exc.get_line_number.getD 0) (exc.get_start_column.getD 0)), false)
         else
           (.error .V8FunctionExecutionFailed, false)))
    ∧ (∀ r : Nat, env.execute_function_ret = some r → r ≠ 0 →
        CefV8Value.execute_function env pending = (.ok r, pending)) := by
  constructor
  · intro h0
    cases pending <;>
      simp [CefV8Value.execute_function, h0, hhas, hget, hclear,
        error_from_exception_ptr]
  · intro r hr hrne
    simp [CefV8Value.execute_function, hr, hrne, CefRefPtr.from_raw]

/-- Witness for C3: a null return with a pending exception produces the
populated `V8Exception` and leaves no exception pending afterwards. -/
theorem execute_function_two_path_witness :
    CefV8Value.execute_function
        ⟨some 0, true, some (some ⟨some "boom", some "app.js", some 10, some 3⟩), true⟩
        true
      = (.error (.V8Exception "boom" "app.js" 10 3), false)
    ∧ CefV8Value.execute_function
        ⟨some 0, true, some (some ⟨some "boom", some "app.js", some 10, some 3⟩), true⟩
        false
      = (.error .V8FunctionExecutionFailed, false) := by
  constructor
  · have h := (execute_function_two_path
      ⟨some 0, true, some (some ⟨some "boom", some "app.js", some 10, some 3⟩), true⟩
      ⟨some "boom", some "app.js", some 10, some 3⟩ true rfl rfl rfl).1 rfl
    simpa using h
  · have h := (execute_function_two_path
      ⟨some 0, true, some (some ⟨some "boom", some "app.js", some 10, some 3⟩), true⟩
      ⟨some "boom", some "app.js", some 10, some 3⟩ false rfl rfl rfl).1 rfl
    simpa using h

/-- Claim C5 counterexample: with no scripting context active (the foreign
accessor returns null), `CefV8Context::current` fails with
`NullPtrReceived`, not with `NoCurrentV8Context` as the claim states. -/
theorem current_null_error_is_NullPtrReceived :
    CefV8Context.current 0 = .error .NullPtrReceived
    ∧ CefV8Context.current 0 ≠ .error .NoCurrentV8Context := by
  decide

/-- Claim C5 (amended): `CefV8Context::current` fails exactly when the
foreign current-context accessor returns null, and the error it fails with
is `NullPtrReceived` (the `NullHandle` error produced by `from_raw`); the
`NoCurrentV8Context` variant is never produced. -/
theorem current_fails_iff_null (raw : Nat) :
    (CefV8Context.current raw = .error .NullPtrReceived ↔ raw = 0)
    ∧ (raw ≠ 0 → CefV8Context.current raw = .ok raw)
    ∧ CefV8Context.current raw ≠ .error .NoCurrentV8Context := by
  refine ⟨?_, ?_, ?_⟩ <;>
    by_cases h : raw = 0 <;>
      simp [CefV8Context.current, CefRefPtr.from_raw, h]

/-- Witness for the amended C5 at a non-null accessor result. -/
theorem current_fails_iff_null_witness :
    CefV8Context.current 0 = .error .NullPtrReceived
    ∧ CefV8Context.current 7 = .ok 7 :=
  ⟨(current_fails_iff_null 0).1.mpr rfl,
   (current_fails_iff_null 7).2.1 (by decide)⟩

/-- Claim C6 counterexample: when UTF-16 marshaling succeeds but
`cef_v8value_create_string` returns null, `try_from_str` fails with
`NullPtrReceived`, not with `V8ValueCreationFailed` as the claim states. -/
theorem try_from_str_null_error_is_NullPtrReceived :
    CefV8Value.try_from_str ⟨true, 0⟩ = .error .NullPtrReceived
    ∧ isValueCreationFailed (CefV8Value.try_from_str ⟨true, 0⟩) = false := by
  decide

/-- Claim C6 (amended): `try_from_str` fails with `StringConversionFailed`
when the UTF-16 marshaling step fails, and with `NullPtrReceived` (not
`V8ValueCreationFailed`) when the create-string entry point returns null;
these are the only failure outcomes, and otherwise it returns the created
value's handle. -/
theorem try_from_str_spec (env : FromStrEnv) :
    CefV8Value.try_from_str env =
      (if env.utf16_set_ok = false then .error .StringConversionFailed
       else if env.create_string_ret = 0 then .error .NullPtrReceived
       else .ok env.create_string_ret) := by
  obtain ⟨u, r⟩ := env
  cases u <;>
    by_cases h : r = 0 <;>
      simp [CefV8Value.try_from_str, CefString16.from_str, CefRefPtr.from_raw, h]

/-- Claim C7 counterexample: `smtc_core::register_event_callback` neither
clears an existing registration first nor leaves the slot empty on failure:
with the SMTC context initialised, an old registration `⟨5, 6⟩` in the slot
and a null function pointer, the call fails (`NullPtrReceived` is logged)
yet the old registration is still there. -/
theorem smtc_register_keeps_old_slot_on_failure :
    smtc_register_event_callback true (some ⟨5, 6⟩) 0 7
      = (some ⟨5, 6⟩, some .NullPtrReceived)
    ∧ (smtc_register_event_callback true (some ⟨5, 6⟩) 0 7).1 ≠ none := by
  decide

/-- Claim C7 (amended): `logger::register_callback` clears the existing
registration first and on any failure (null function pointer or null
current context) leaves the slot empty, reporting the error;
`smtc_core::register_event_callback` instead builds the new callback first
and replaces the slot only on success — on failure it reports the error but
leaves any existing registration unchanged, and with the SMTC context
uninitialised it changes nothing and reports nothing. -/
theorem registry_register_spec (slot : Option RegCallback) (fp cur : Nat) :
    (fp = 0 ∨ cur = 0 →
      logger_register_callback slot fp cur = (none, some .NullPtrReceived))
    ∧ (fp ≠ 0 → cur ≠ 0 →
      logger_register_callback slot fp cur = (some ⟨cur, fp⟩, none))
    ∧ (fp = 0 ∨ cur = 0 →
      smtc_register_event_callback true slot fp cur = (slot, some .NullPtrReceived))
    ∧ (fp ≠ 0 → cur ≠ 0 →
      smtc_register_event_callback true slot fp cur = (some ⟨cur, fp⟩, none))
    ∧ smtc_register_event_callback false slot fp cur = (slot, none) := by
  refine ⟨?_, ?_, ?_, ?_, rfl⟩
  · rintro (h | h)
    · simp [logger_register_callback, CefRefPtr.from_raw, CefV8Context.current, h]
    · by_cases hf : fp = 0 <;>
        simp [logger_register_callback, CefRefPtr.from_raw, CefV8Context.current, h, hf]
  · intro hf hc
    simp [logger_register_callback, CefRefPtr.from_raw, CefV8Context.current, hf, hc]
  · rintro (h | h)
    · by_cases hc : cur = 0 <;>
        simp [smtc_register_event_callback, CefRefPtr.from_raw, CefV8Context.current,
          h, hc]
    · simp [smtc_register_event_callback, CefRefPtr.from_raw, CefV8Context.current, h]
  · intro hf hc
    simp [smtc_register_event_callback, CefRefPtr.from_raw, CefV8Context.current, hf, hc]

/-- Witness for the amended C7: a failing and a succeeding registration on
each registry. -/
theorem registry_register_spec_witness :
    logger_register_callback (some ⟨1, 2⟩) 0 9 = (none, some .NullPtrReceived)
    ∧ logger_register_callback none 3 9 = (some ⟨9, 3⟩, none)
    ∧ smtc_register_event_callback true (some ⟨1, 2⟩) 0 9
        = (some ⟨1, 2⟩, some .NullPtrReceived)
    ∧ smtc_register_event_callback true none 3 9 = (some ⟨9, 3⟩, none) :=
  ⟨(registry_register_spec (some ⟨1, 2⟩) 0 9).1 (Or.inl rfl),
   (registry_register_spec none 3 9).2.1 (by decide) (by decide),
   (registry_register_spec (some ⟨1, 2⟩) 0 9).2.2.1 (Or.inl rfl),
   (registry_register_spec none 3 9).2.2.2.1 (by decide) (by decide)⟩
